import Mathlib

/-!
Verification of the btzen BLE library core against its specification.

The definitions below are shallow embeddings of the Python sources:

* `sensortag.py`  — SensorTag trigger encoding (`_enable_sensor_tag_tr`)
* `btweight.py`   — Mi-scale weight decoder (`convert_weight`)
* `serial.py`     — credit gated serial transport (`_read_data`, `credits_for`,
  `_rx_credits_mgr`, `_add_rx_credits`)
* `thingy52.py`   — Thingy:52 shared configuration blob
  (`_enable_thingy52`, `_set_trigger_thingy52`)
* `device.py`     — descriptor model and `set_trigger`
* `bus.py`        — notification multiplexer (`Notifications.start`)
* `session.py`    — session gate (`connected`, `Session.wait_connected`)
* `cm.py`         — per MAC connection loop (`restart_devices`,
  `enable_devices`, `disable_devices`)

Python floats are modelled as rationals, byte strings as lists of
naturals below 256, and raised exceptions as `Except` error values.
-/

namespace Btzen

/-- Kinds of Python exceptions raised by the modelled operations. -/
inductive PyError where
  | assertionError
  | valueError
  | configurationError
  | cancelledError (msg : String)
  | lookupError
  | callError
  | btzenError (msg : String)
deriving DecidableEq, Repr

/-- Semantics of the Python `int()` conversion on a rational: truncation
toward zero, implemented as truncating division of numerator by
denominator. -/
def pyInt (q : Rat) : Int := q.num.tdiv q.den

theorem pyInt_eq_floor (q : Rat) (h : 0 ≤ q) : pyInt q = ⌊q⌋ := by
  unfold pyInt
  rw [Rat.floor_def]
  exact Int.tdiv_eq_ediv (Rat.num_nonneg.mpr h) (Int.ofNat_nonneg q.den)

theorem pyInt_nonneg {q : Rat} (h : 0 ≤ q) : 0 ≤ pyInt q := by
  rw [pyInt_eq_floor q h]
  exact Int.floor_nonneg.mpr h

theorem pyInt_lt_intCast {q : Rat} {c : Int} (h0 : 0 ≤ q) (h : q < (c : Rat)) :
    pyInt q < c := by
  rw [pyInt_eq_floor q h0]
  exact Int.floor_lt.mpr h

/-!
## SensorTag trigger encoding (`sensortag.py`)

`_enable_sensor_tag` writes `config_on` to the configuration
characteristic and then the single byte `int(interval * 100)` to the
trigger characteristic, after `assert value < 256`.
`_enable_sensor_tag_tr` additionally writes the single byte
`int(operand * 100)` encoded from the trigger operand, again guarded by
`assert value < 256`.  The embedding returns the written
`(uuid, payload)` sequence.
-/

/-- Bluetooth service descriptor of `SensorTagService` in `sensortag.py`;
configuration blobs are byte lists. -/
structure SensorTagService where
  uuid : String
  uuid_data : String
  size : Nat
  uuid_conf : String
  uuid_trigger : String
  config_on : List Nat
  config_off : List Nat
  interval : Rat := 1
deriving DecidableEq, Repr

/-- Python `bytes([value])`: a one element byte string; raises
`ValueError` outside `0 ≤ value < 256`. -/
def bytesOfByte (value : Int) : Except PyError (List Nat) :=
  if 0 ≤ value ∧ value < 256 then .ok [value.toNat] else .error .valueError

/-- The trigger byte computation shared by `_enable_sensor_tag` and
`_enable_sensor_tag_tr`: `value = int(t * 100)`, `assert value < 256`,
`bytes([value])`. -/
def trigger_byte (t : Rat) : Except PyError (List Nat) :=
  let value := pyInt (t * 100)
  if value < 256 then bytesOfByte value else .error .assertionError

/-- Writes performed by `_enable_sensor_tag` (configuration on, then the
interval byte to the trigger characteristic). -/
def enable_sensor_tag (srv : SensorTagService) :
    Except PyError (List (String × List Nat)) := do
  let ib ← trigger_byte srv.interval
  pure [(srv.uuid_conf, srv.config_on), (srv.uuid_trigger, ib)]

/-- Writes performed by `_enable_sensor_tag_tr`: the `_enable_sensor_tag`
writes, `assert device.trigger.operand is not None`, then the operand
byte to the trigger characteristic. -/
def enable_sensor_tag_tr (srv : SensorTagService) (operand : Option Rat) :
    Except PyError (List (String × List Nat)) := do
  let ws ← enable_sensor_tag srv
  match operand with
  | none => .error .assertionError
  | some t => do
    let tb ← trigger_byte t
    pure (ws ++ [(srv.uuid_trigger, tb)])

/-- The registered SensorTag temperature service (`register_st` call in
`sensortag.py`). -/
def sensorTagTemperature : SensorTagService :=
  { uuid := "f000aa00-0451-4000-b000-000000000000"
    uuid_data := "f000aa01-0451-4000-b000-000000000000"
    size := 4
    uuid_conf := "f000aa02-0451-4000-b000-000000000000"
    uuid_trigger := "f000aa03-0451-4000-b000-000000000000"
    config_on := [1]
    config_off := [0]
    interval := 1 }

/-!
## Mi-scale weight decoder (`btweight.py`)
-/

/-- Decoded weight measurement (`MiScaleWeightData` in `btweight.py`). -/
structure MiScaleWeightData where
  flags : Nat
  weight : Rat
  stabilized : Bool
  load_removed : Bool
deriving DecidableEq, Repr

/-- `convert_weight`: `struct.unpack("<BH", data[0:3])` gives the flag
byte and the little endian 16 bit raw weight; the weight value is
`raw * 0.005`; `stabilized` and `load_removed` test flag bits `0x20`
and `0x80`.  Fails (`struct.error`) when fewer than three bytes are
available. -/
def convert_weight (data : List Nat) : Option MiScaleWeightData :=
  match data with
  | b0 :: b1 :: b2 :: _ =>
    some
      { flags := b0
        weight := ((b1 + 256 * b2 : Nat) : Rat) * (5 / 1000)
        stabilized := b0 &&& 0x20 != 0
        load_removed := b0 &&& 0x80 != 0 }
  | _ => none

/-!
## Credit gated serial transport (`serial.py`)

`_read_data` copies the buffered bytes, then loops: while fewer than `n`
bytes are collected, `_rx_credits_mgr` grants `credits_for(n - len(data))`
RX credits when the local count is below one, a `TX_UART` fragment is
appended, and one credit is consumed.  On exit the first `n` bytes are
returned and the surplus is retained in the device buffer.
-/

/-- `credits_for(n)` from `serial.py`: `min(255, math.ceil(n / 20))`. -/
def credits_for (n : Nat) : Nat := min 255 ((n + 19) / 20)

/-- Per device serial state (`State` in `serial.py`). -/
structure SerialState where
  buffer : List Nat
  rx_credits : Int
deriving DecidableEq, Repr

/-- The `while len(data) < n` loop of `_read_data`.  Arguments are the
requested size, the collected bytes, the RX credit count, the granted
credit records `(remaining, amount)` so far, and the pending `TX_UART`
fragments.  Returns the read bytes, the retained buffer, the final
credit count, the grant records and the unconsumed fragments; `none`
models waiting forever because no fragment arrives. -/
def read_loop (n : Nat) :
    List (List Nat) → List Nat → Int → List (Nat × Nat) →
      Option (List Nat × List Nat × Int × List (Nat × Nat) × List (List Nat))
  | frags, data, credits, grants =>
    if n ≤ data.length then
      some (data.take n, data.drop n, credits, grants, frags)
    else
      match frags with
      | [] => none
      | f :: rest =>
        if credits < 1 then
          read_loop n rest (data ++ f) (credits + credits_for (n - data.length) - 1)
            (grants ++ [(n - data.length, credits_for (n - data.length))])
        else
          read_loop n rest (data ++ f) (credits - 1) grants

/-- `_read_data(bus, device, n)`: run the read loop starting from the
retained buffer, return the read bytes and the new device state. -/
def read_data (n : Nat) (st : SerialState) (frags : List (List Nat)) :
    Option (List Nat × SerialState × List (Nat × Nat) × List (List Nat)) :=
  match read_loop n frags st.buffer st.rx_credits [] with
  | some (out, buf, credits, grants, rest) => some (out, ⟨buf, credits⟩, grants, rest)
  | none => none

/-!
## RX credit accounting (`serial.py`)

The operations that touch `rx_credits` are: the reset in
`_enable_serial`, the grant of `_add_rx_credits` issued by
`_rx_credits_mgr` before a fragment is awaited when the count is below
one (amount `credits_for(remaining)`), the decrement after each received
fragment, and the grant of `0x20` issued by `_write_serial` when the
count is below one.
-/

/-- Operations of the serial transport that touch the credit counter. -/
inductive SerialOp where
  | reset
  | fragment (remaining : Nat)
  | writeOp
deriving DecidableEq, Repr

/-- Credit bookkeeping state: the local counter together with the grant
and fragment totals since the last reset. -/
structure CreditState where
  rx_credits : Int
  granted : Nat
  received : Nat
deriving DecidableEq, Repr

/-- One step of credit bookkeeping, following `_enable_serial`,
`_rx_credits_mgr`, `_add_rx_credits` and `_write_serial`. -/
def step_credit (s : CreditState) : SerialOp → CreditState
  | .reset => ⟨0, 0, 0⟩
  | .fragment r =>
    if s.rx_credits < 1 then
      ⟨s.rx_credits + credits_for r - 1, s.granted + credits_for r, s.received + 1⟩
    else
      ⟨s.rx_credits - 1, s.granted, s.received + 1⟩
  | .writeOp =>
    if s.rx_credits < 1 then
      ⟨s.rx_credits + 0x20, s.granted + 0x20, s.received⟩
    else s

/-- Run a sequence of serial operations from the freshly enabled state. -/
def run_credit (ops : List SerialOp) : CreditState :=
  ops.foldl step_credit ⟨0, 0, 0⟩

/-- A fragment is only awaited while `len(data) < n`, so the remaining
byte count of every `fragment` operation is positive. -/
def ValidSerialOp : SerialOp → Prop
  | .fragment r => 1 ≤ r
  | _ => True

/-!
## Thingy:52 shared configuration (`thingy52.py`)
-/

/-- The field of `Thingy52Config` named by the `config_entry` string of a
registered Thingy:52 service (`pressure`, `temperature`, `humidity`,
`color`). -/
inductive ConfigEntry where
  | temperature
  | pressure
  | humidity
  | color
deriving DecidableEq, Repr

/-- `Thingy52Config`: cached configuration of the weather service
sensors, with its field defaults. -/
structure Thingy52Config where
  temperature : Rat := 1
  pressure : Rat := 1
  humidity : Rat := 1
  color : Rat := 1
  gas : Nat := 1
  rgb : Nat × Nat × Nat := (0, 255, 0)
deriving DecidableEq, Repr

/-- `dataclasses.replace(config, **{config_entry: operand})`. -/
def replace_entry (c : Thingy52Config) : ConfigEntry → Rat → Thingy52Config
  | .temperature, v => { c with temperature := v }
  | .pressure, v => { c with pressure := v }
  | .humidity, v => { c with humidity := v }
  | .color, v => { c with color := v }

/-- `_CONFIG_CACHE`: a defaultdict from MAC address to configuration. -/
def ConfigCache := String → Thingy52Config

/-- The empty cache: every MAC maps to the default configuration. -/
def emptyCache : ConfigCache := fun _ => {}

/-- Cache update performed by `_set_trigger_thingy52`. -/
def update_cache (cache : ConfigCache) (mac : String) (e : ConfigEntry)
    (v : Rat) : ConfigCache :=
  fun m => if m = mac then replace_entry (cache m) e v else cache m

/-- `to_ms` in `_enable_thingy52`: `int(v * 1000)`. -/
def to_ms (v : Rat) : Int := pyInt (v * 1000)

/-- `struct.pack` of one little endian unsigned 16 bit field; fails
(`struct.error`) outside `0 ≤ v < 65536`. -/
def pack_u16 (v : Int) : Option (List Nat) :=
  if 0 ≤ v ∧ v < 65536 then some [v.toNat % 256, v.toNat / 256] else none

/-- `struct.pack` of one unsigned byte field. -/
def pack_u8 (v : Nat) : Option (List Nat) :=
  if v < 256 then some [v] else none

/-- `CONFIG_DATA_FMT.pack(to_ms(temperature), to_ms(pressure),
to_ms(humidity), to_ms(color), gas, *rgb)` with format `<HHHHBBBB`. -/
def CONFIG_DATA_FMT_pack (c : Thingy52Config) : Option (List Nat) := do
  let t ← pack_u16 (to_ms c.temperature)
  let p ← pack_u16 (to_ms c.pressure)
  let h ← pack_u16 (to_ms c.humidity)
  let col ← pack_u16 (to_ms c.color)
  let g ← pack_u8 c.gas
  let r ← pack_u8 c.rgb.1
  let gr ← pack_u8 c.rgb.2.1
  let b ← pack_u8 c.rgb.2.2
  pure (t ++ p ++ h ++ col ++ g ++ r ++ gr ++ b)

/-- The configuration write performed by `_enable_thingy52` for a device
of the given MAC: the packed blob of the cached configuration, written
to the shared configuration characteristic. -/
def enable_thingy52 (cache : ConfigCache) (mac uuid_conf : String) :
    Option (String × List Nat) :=
  (CONFIG_DATA_FMT_pack (cache mac)).map (fun d => (uuid_conf, d))

/-- One `set_trigger` call on a Thingy:52 sensor: the MAC of the device,
the configuration entry of its service, and the operand. -/
structure TriggerOp where
  mac : String
  entry : ConfigEntry
  operand : Rat
deriving DecidableEq, Repr

/-- Apply a sequence of `_set_trigger_thingy52` calls to the cache. -/
def apply_trigger_ops (ops : List TriggerOp) (cache : ConfigCache) : ConfigCache :=
  ops.foldl (fun c op => update_cache c op.mac op.entry op.operand) cache

/-- The operand of the last `set_trigger` call for a given MAC and
configuration entry, if any. -/
def last_written (ops : List TriggerOp) (mac : String) (e : ConfigEntry) :
    Option Rat :=
  ((ops.filter (fun op => decide (op.mac = mac ∧ op.entry = e))).getLast?).map
    (fun op => op.operand)

/-!
## Device descriptors and `set_trigger` (`device.py`, `thingy52.py`)

Descriptors are frozen dataclasses.  `set_trigger` is a single dispatch
function: the default implementation builds a new `DeviceTrigger` from
the fields of the input and `Trigger(condition, operand)`; the override
registered for `DeviceTrigger[Thingy52Service, T]` asserts the operand,
updates the per MAC configuration cache, and returns the input device
itself.
-/

/-- `TriggerCondition` enumeration from `data.py`. -/
inductive TriggerCondition where
  | FIXED_TIME
  | ON_CHANGE
deriving DecidableEq, Repr

/-- `Trigger` record from `data.py`. -/
structure Trigger where
  condition : TriggerCondition
  operand : Option Rat := none
deriving DecidableEq, Repr

/-- `AddressType` enumeration from `data.py`. -/
inductive AddressType where
  | publicAddr
  | randomAddr
deriving DecidableEq, Repr

/-- Service descriptor variants relevant to dispatch: the plain service,
a characteristic service, and the Thingy:52 service carrying the shared
configuration characteristic and a configuration entry name. -/
inductive ServiceDesc where
  | service (uuid : String)
  | characteristic (uuid uuid_data : String) (size : Nat)
  | thingy52Srv (uuid uuid_data : String) (size : Nat) (uuid_conf : String)
      (config_entry : ConfigEntry)
deriving DecidableEq, Repr

/-- Device descriptor (`DeviceBase`): a plain `Device` has no trigger, a
`DeviceTrigger` has one.  The conversion function is represented by an
identifier. -/
structure DeviceDesc where
  service : ServiceDesc
  mac : String
  address_type : AddressType
  convertId : Nat
  trigger : Option Trigger
deriving DecidableEq, Repr

/-- Whether `functools.singledispatch` routes `set_trigger` for this
device to the `DeviceTrigger[Thingy52Service, T]` override. -/
def isThingyTrigger (d : DeviceDesc) : Bool :=
  d.trigger.isSome &&
    (match d.service with
     | .thingy52Srv _ _ _ _ _ => true
     | _ => false)

/-- `set_trigger(device, condition, operand)`: the Thingy:52 override
updates the configuration cache and returns the device unchanged; the
default implementation returns a `DeviceTrigger` with the same fields
and `Trigger(condition, operand)`. -/
def set_trigger (cache : ConfigCache) (d : DeviceDesc)
    (condition : TriggerCondition) (operand : Option Rat) :
    Except PyError (ConfigCache × DeviceDesc) :=
  match d.trigger, d.service with
  | some _, .thingy52Srv _ _ _ _ entry =>
    match operand with
    | none => .error .assertionError
    | some v => .ok (update_cache cache d.mac entry v, d)
  | _, _ =>
    .ok (cache, { d with trigger := some { condition := condition, operand := operand } })

/-- The registered Thingy:52 temperature service descriptor
(`register_th` call in `thingy52.py`). -/
def thingyTemperatureService : ServiceDesc :=
  .thingy52Srv "ef680200-9b35-4933-9b10-52ffa9740042"
    "ef680201-9b35-4933-9b10-52ffa9740042" 2
    "ef680206-9b35-4933-9b10-52ffa9740042" .temperature

/-- A Thingy:52 temperature device as produced by the `temperature`
constructor: random address type and the registered default trigger
`Trigger(FIXED_TIME, 1)`. -/
def thingyTemperatureDevice : DeviceDesc :=
  { service := thingyTemperatureService
    mac := "F0:00:00:00:00:01"
    address_type := .randomAddr
    convertId := 0
    trigger := some { condition := .FIXED_TIME, operand := some 1 } }

/-- A standard characteristic device without trigger, used to exercise
the default `set_trigger` implementation. -/
def plainCharacteristicDevice : DeviceDesc :=
  { service := .characteristic "0000181d-0000-1000-8000-00805f9b34fb"
      "00002a9d-0000-1000-8000-00805f9b34fb" 9
    mac := "00:00:00:00:00:02"
    address_type := .publicAddr
    convertId := 1
    trigger := none }

/-!
## Notification multiplexer (`bus.py`)

`Notifications` keeps one `PropertyNotification` per `(path, interface)`
key.  `start` asserts that the key is not present, creates the monitor
and registers the property name; `stop` removes the key.
-/

/-- State of the `Notifications` multiplexer: the monitored
`(path, interface)` keys with their registered property names. -/
structure NotifState where
  data : List ((String × String) × List String)
deriving DecidableEq, Repr

/-- `Notifications.start(path, iface, name)`: `assert key not in
self._data`, create the subscription, register the name. -/
def Notifications_start (s : NotifState) (path iface name : String) :
    Except PyError NotifState :=
  if (s.data.lookup (path, iface)).isSome then .error .assertionError
  else .ok ⟨((path, iface), [name]) :: s.data⟩

/-- `Notifications.stop(path, iface)`: drop the subscription and all its
name sinks; absent keys are ignored. -/
def Notifications_stop (s : NotifState) (path iface : String) : NotifState :=
  ⟨s.data.filter (fun kv => kv.1 != (path, iface))⟩

/-!
## Session gate (`session.py`)

`connected(device)` raises `asyncio.CancelledError` when the session is
not active, and otherwise delegates to `Session.wait_connected`, which
raises `BTZenError` for a MAC without a connection status event and
otherwise awaits the event.
-/

/-- The session state relevant to the read gate: the active flag and the
per MAC connection status events (`_connection_status`). -/
structure SessionLite where
  is_active : Bool
  connection_status : List (String × Bool)
deriving DecidableEq, Repr

/-- Outcome of entering a read operation: an exception, or suspension on
the connection event of a MAC. -/
inductive ReadStart where
  | raises (e : PyError)
  | waitsFor (mac : String)
deriving DecidableEq, Repr

/-- `Session.wait_connected(device)`: `assert self._is_active`; a MAC
without an event raises `BTZenError("Device with address ... not managed
by BTZen connection manager")`; otherwise the caller awaits the event. -/
def wait_connected (s : SessionLite) (mac : String) : ReadStart :=
  if s.is_active = false then .raises .assertionError
  else
    match s.connection_status.lookup mac with
    | none =>
      .raises (.btzenError
        ("Device with address " ++ mac ++
          " not managed by BTZen connection manager"))
    | some _ => .waitsFor mac

/-- The `connected(device)` gate entered by every `read` implementation:
no session bound to the context raises `LookupError`; an inactive
session raises `asyncio.CancelledError("BTZen is not running for device
with address ...")`; otherwise `wait_connected` runs. -/
def read_gate (sess : Option SessionLite) (mac : String) : ReadStart :=
  match sess with
  | none => .raises .lookupError
  | some s =>
    if s.is_active = false then
      .raises (.cancelledError
        ("BTZen is not running for device with address " ++ mac))
    else wait_connected s mac

/-!
## Per MAC connection loop (`cm.py`)

`restart_devices` iterates `resolve_services`: a `ServicesResolved`
value of false runs `disable_devices` (which clears the connection flag
first); a value of true runs `enable_devices`, which awaits `enable` for
each device in turn and sets the connection flag only after all of them
succeed.  Only `asyncio.CancelledError` is caught around
`enable_devices`; any other exception propagates and terminates the
loop without touching the flag.
-/

/-- Outcome of one `enable(device)` call. -/
inductive EnableOutcome where
  | success
  | cancelled
  | failure
deriving DecidableEq, Repr

/-- One observation of the `ServicesResolved` property, together with
the enable outcomes the environment would produce for the devices of
the MAC when the property is true. -/
inductive CMEvent where
  | resolvedTrue (results : List EnableOutcome)
  | resolvedFalse
deriving DecidableEq, Repr

/-- State of the per MAC loop: the `CM_CONNECTION` event flag, the last
terminal `enable` outcome per device, and whether the loop is still
running (an uncaught exception terminates it). -/
structure CMState where
  connectedFlag : Bool
  lastEnable : List (Option EnableOutcome)
  alive : Bool
deriving DecidableEq, Repr

/-- Sequential `enable` calls of `enable_devices`: record outcomes until
the first non success, whose kind is returned; devices after it are not
enabled. -/
def apply_enables :
    List (Option EnableOutcome) → List EnableOutcome →
      List (Option EnableOutcome) × Option EnableOutcome
  | les, [] => (les, none)
  | [], _ => ([], none)
  | _ :: les, .success :: rs =>
    let (les', f) := apply_enables les rs
    (some .success :: les', f)
  | _ :: les, .cancelled :: _ => (some .cancelled :: les, some .cancelled)
  | _ :: les, .failure :: _ => (some .failure :: les, some .failure)

/-- One iteration of `restart_devices`: `resolvedFalse` runs
`disable_devices` (clearing the flag first); `resolvedTrue` runs
`enable_devices` and either sets the flag (all enables succeeded),
clears it (a cancellation was caught and `disable_devices` ran), or
terminates the loop leaving the flag untouched (any other exception
propagates). -/
def step_cm (s : CMState) (e : CMEvent) : CMState :=
  if s.alive = false then s
  else
    match e with
    | .resolvedFalse => { s with connectedFlag := false }
    | .resolvedTrue rs =>
      match apply_enables s.lastEnable rs with
      | (les', none) => { connectedFlag := true, lastEnable := les', alive := true }
      | (les', some .cancelled) =>
        { connectedFlag := false, lastEnable := les', alive := true }
      | (les', some _) => { s with lastEnable := les', alive := false }

/-- Run the per MAC loop for a MAC with `k` devices over a sequence of
`ServicesResolved` observations. -/
def run_cm (k : Nat) (events : List CMEvent) : CMState :=
  events.foldl step_cm ⟨false, List.replicate k none, true⟩

/-!
## Helper lemmas
-/

theorem and_two_pow_bne_zero (b i : Nat) : (b &&& 2 ^ i != 0) = b.testBit i := by
  rw [Nat.and_two_pow]
  cases h : b.testBit i <;> simp [h]

theorem trigger_byte_ok {t : Rat} (h0 : 0 ≤ t) (h1 : t < 256 / 100) :
    trigger_byte t = .ok [(pyInt (t * 100)).toNat] ∧
      pyInt (t * 100) < 256 ∧ 0 ≤ pyInt (t * 100) := by
  have hq : (0 : Rat) ≤ t * 100 := by positivity
  have hlt : t * 100 < ((256 : Int) : Rat) := by
    push_cast
    exact (lt_div_iff₀ (by norm_num)).mp h1
  have h2 : pyInt (t * 100) < 256 := pyInt_lt_intCast hq hlt
  have h3 : 0 ≤ pyInt (t * 100) := pyInt_nonneg hq
  refine ⟨?_, h2, h3⟩
  simp [trigger_byte, bytesOfByte, h2, h3]

theorem trigger_byte_one : trigger_byte 1 = .ok [100] := by
  have h := (trigger_byte_ok (t := 1) (by norm_num) (by norm_num)).1
  have e : pyInt ((1 : Rat) * 100) = 100 := by norm_num [pyInt]
  rw [h, e]
  rfl

theorem trigger_byte_256 : trigger_byte (256 / 100) = .error .assertionError := by
  have e : pyInt ((256 / 100 : Rat) * 100) = 256 := by norm_num [pyInt]
  simp only [trigger_byte]
  rw [e]
  norm_num

theorem credits_for_pos {n : Nat} (h : 1 ≤ n) : 1 ≤ credits_for n := by
  unfold credits_for
  have h2 : 1 ≤ (n + 19) / 20 := (Nat.le_div_iff_mul_le (by norm_num)).mpr (by omega)
  omega

theorem step_credit_preserves (s : CreditState) (op : SerialOp)
    (hop : ValidSerialOp op)
    (h1 : s.rx_credits = (s.granted : Int) - s.received)
    (h2 : 0 ≤ s.rx_credits) :
    (step_credit s op).rx_credits =
      ((step_credit s op).granted : Int) - (step_credit s op).received ∧
    0 ≤ (step_credit s op).rx_credits := by
  cases op with
  | reset => simp [step_credit]
  | writeOp =>
    by_cases hc : s.rx_credits < 1
    · simp only [step_credit, if_pos hc]
      constructor <;> push_cast <;> omega
    · simp only [step_credit, if_neg hc]
      exact ⟨h1, h2⟩
  | fragment r =>
    have hr : 1 ≤ credits_for r := credits_for_pos hop
    by_cases hc : s.rx_credits < 1
    · simp only [step_credit, if_pos hc]
      constructor <;> push_cast <;> omega
    · simp only [step_credit, if_neg hc]
      constructor <;> push_cast <;> omega

theorem run_credit_invariant_aux (ops : List SerialOp) (s : CreditState)
    (h : ∀ op ∈ ops, ValidSerialOp op)
    (h1 : s.rx_credits = (s.granted : Int) - s.received)
    (h2 : 0 ≤ s.rx_credits) :
    (ops.foldl step_credit s).rx_credits =
      ((ops.foldl step_credit s).granted : Int) -
        (ops.foldl step_credit s).received ∧
    0 ≤ (ops.foldl step_credit s).rx_credits := by
  induction ops generalizing s with
  | nil => exact ⟨h1, h2⟩
  | cons op rest ih =>
    simp only [List.foldl_cons]
    obtain ⟨h1', h2'⟩ :=
      step_credit_preserves s op (h op (List.mem_cons_self op rest)) h1 h2
    exact ih (step_credit s op) (fun o ho => h o (List.mem_cons_of_mem op ho)) h1' h2'

theorem read_loop_spec (n : Nat) (frags : List (List Nat)) :
    ∀ (data : List Nat) (credits : Int) (grants : List (Nat × Nat))
      (out buf : List Nat) (credits' : Int) (grants' : List (Nat × Nat))
      (rest : List (List Nat)),
      read_loop n frags data credits grants =
        some (out, buf, credits', grants', rest) →
      ∃ consumed,
        consumed ++ rest = frags ∧
        n ≤ (data ++ consumed.flatten).length ∧
        out = (data ++ consumed.flatten).take n ∧
        buf = (data ++ consumed.flatten).drop n ∧
        (∀ p ∈ grants', p ∈ grants ∨ (1 ≤ p.1 ∧ p.2 = credits_for p.1)) := by
  induction frags with
  | nil =>
    intro data credits grants out buf credits' grants' rest h
    rw [read_loop] at h
    by_cases hn : n ≤ data.length
    · rw [if_pos hn] at h
      simp only [Option.some.injEq, Prod.mk.injEq] at h
      obtain ⟨ho, hb, _, hg, hr⟩ := h
      subst hr
      exact ⟨[], by simp, by simpa using hn, by simpa using ho.symm,
        by simpa using hb.symm, fun p hp => Or.inl (hg ▸ hp)⟩
    · rw [if_neg hn] at h
      cases h
  | cons f rest0 ih =>
    intro data credits grants out buf credits' grants' rest h
    rw [read_loop] at h
    by_cases hn : n ≤ data.length
    · rw [if_pos hn] at h
      simp only [Option.some.injEq, Prod.mk.injEq] at h
      obtain ⟨ho, hb, _, hg, hr⟩ := h
      subst hr
      exact ⟨[], by simp, by simpa using hn, by simpa using ho.symm,
        by simpa using hb.symm, fun p hp => Or.inl (hg ▸ hp)⟩
    · rw [if_neg hn] at h
      have hrem : 1 ≤ n - data.length := by omega
      by_cases hc1 : credits < 1
      · rw [if_pos hc1] at h
        obtain ⟨consumed, hcr, hlen, hout, hbuf, hgr⟩ :=
          ih _ _ _ _ _ _ _ _ h
        refine ⟨f :: consumed, by simp [hcr], ?_, ?_, ?_, ?_⟩
        · simpa [List.append_assoc] using hlen
        · simpa [List.append_assoc] using hout
        · simpa [List.append_assoc] using hbuf
        · intro p hp
          rcases hgr p hp with hin | hgood
          · rcases List.mem_append.mp hin with h1 | h2
            · exact Or.inl h1
            · right
              have hpe := List.mem_singleton.mp h2
              subst hpe
              exact ⟨hrem, rfl⟩
          · exact Or.inr hgood
      · rw [if_neg hc1] at h
        obtain ⟨consumed, hcr, hlen, hout, hbuf, hgr⟩ :=
          ih _ _ _ _ _ _ _ _ h
        refine ⟨f :: consumed, by simp [hcr], ?_, ?_, ?_, ?_⟩
        · simpa [List.append_assoc] using hlen
        · simpa [List.append_assoc] using hout
        · simpa [List.append_assoc] using hbuf
        · exact hgr

theorem read_data_take (n : Nat) (st : SerialState) (frags : List (List Nat))
    (out : List Nat) (st' : SerialState) (grants : List (Nat × Nat))
    (rest : List (List Nat))
    (h : read_data n st frags = some (out, st', grants, rest)) :
    ∃ consumed,
      consumed ++ rest = frags ∧
      n ≤ (st.buffer ++ consumed.flatten).length ∧
      out = (st.buffer ++ consumed.flatten).take n ∧
      st'.buffer = (st.buffer ++ consumed.flatten).drop n ∧
      (∀ p ∈ grants, 1 ≤ p.1 ∧ p.2 = credits_for p.1) := by
  unfold read_data at h
  cases hrl : read_loop n frags st.buffer st.rx_credits [] with
  | none => rw [hrl] at h; cases h
  | some v =>
    obtain ⟨o, b, c, g, r⟩ := v
    rw [hrl] at h
    simp only [Option.some.injEq, Prod.mk.injEq] at h
    obtain ⟨ho, hst, hg, hr⟩ := h
    obtain ⟨consumed, hcr, hlen, hout, hbuf, hgr⟩ :=
      read_loop_spec n frags st.buffer st.rx_credits [] o b c g r hrl
    refine ⟨consumed, hr ▸ hcr, hlen, ho ▸ hout, ?_, ?_⟩
    · rw [← hst]
      exact hbuf
    · intro p hp
      rcases hgr p (hg ▸ hp) with hin | hgood
      · cases hin
      · exact hgood

theorem pack_u16_length {v : Int} {l : List Nat} (h : pack_u16 v = some l) :
    l.length = 2 := by
  unfold pack_u16 at h
  by_cases hc : 0 ≤ v ∧ v < 65536
  · rw [if_pos hc] at h
    cases h
    rfl
  · rw [if_neg hc] at h
    cases h

theorem pack_u8_length {v : Nat} {l : List Nat} (h : pack_u8 v = some l) :
    l.length = 1 := by
  unfold pack_u8 at h
  by_cases hc : v < 256
  · rw [if_pos hc] at h
    cases h
    rfl
  · rw [if_neg hc] at h
    cases h

theorem CONFIG_DATA_FMT_pack_length {c : Thingy52Config} {blob : List Nat}
    (h : CONFIG_DATA_FMT_pack c = some blob) : blob.length = 12 := by
  simp only [CONFIG_DATA_FMT_pack, bind, Option.bind_eq_some, pure,
    Option.some.injEq] at h
  obtain ⟨t, ht, p, hp, hu, hhu, col, hcol, g, hg, r, hr, gr, hgr, b, hb, hblob⟩ := h
  subst hblob
  simp [List.length_append, pack_u16_length ht, pack_u16_length hhu,
    pack_u16_length hcol, pack_u8_length hg, pack_u8_length hr,
    pack_u8_length hgr, pack_u8_length hb, pack_u16_length hp]

theorem last_written_append (l : List TriggerOp) (op : TriggerOp)
    (mac : String) (e : ConfigEntry) :
    last_written (l ++ [op]) mac e =
      if op.mac = mac ∧ op.entry = e then some op.operand
      else last_written l mac e := by
  unfold last_written
  rw [List.filter_append]
  by_cases hc : op.mac = mac ∧ op.entry = e
  · rw [if_pos hc]
    have : List.filter (fun o => decide (o.mac = mac ∧ o.entry = e)) [op] = [op] := by
      simp [List.filter, hc.1, hc.2]
    rw [this, List.getLast?_concat]
    rfl
  · rw [if_neg hc]
    have : List.filter (fun o => decide (o.mac = mac ∧ o.entry = e)) [op] = [] := by
      simp only [List.filter_cons, List.filter_nil]
      rw [if_neg (by simpa using hc)]
    rw [this, List.append_nil]

theorem apply_trigger_ops_last_written (ops : List TriggerOp) (mac : String) :
    apply_trigger_ops ops emptyCache mac =
      { temperature := (last_written ops mac .temperature).getD 1
        pressure := (last_written ops mac .pressure).getD 1
        humidity := (last_written ops mac .humidity).getD 1
        color := (last_written ops mac .color).getD 1 } := by
  induction ops using List.reverseRecOn with
  | nil => rfl
  | append_singleton l op ih =>
    have hstep : apply_trigger_ops (l ++ [op]) emptyCache =
        update_cache (apply_trigger_ops l emptyCache) op.mac op.entry op.operand := by
      simp [apply_trigger_ops, List.foldl_append]
    rw [hstep]
    unfold update_cache
    by_cases hm : mac = op.mac
    · rw [if_pos hm, ih]
      have hm' : op.mac = mac := hm.symm
      cases hop : op.entry <;>
        simp [replace_entry, last_written_append, hm', hop]
    · rw [if_neg hm, ih]
      have hm' : ¬(op.mac = mac) := fun hcm => hm hcm.symm
      simp [last_written_append, hm']

/-!
## Claim theorems
-/

/-- C1 (counterexample): for trigger operand `t = 2.56` the SensorTag
trigger encoding fails with `AssertionError` from `assert value < 256`,
not with `ConfigurationError` as claimed. -/
theorem sensortag_trigger_256_counterexample :
    enable_sensor_tag_tr sensorTagTemperature (some (256 / 100)) =
      .error .assertionError ∧
    (Except.error PyError.assertionError : Except PyError (List (String × List Nat))) ≠
      .error .configurationError := by
  constructor
  · simp only [enable_sensor_tag_tr, enable_sensor_tag, trigger_byte_one,
      trigger_byte_256, sensorTagTemperature]
    rfl
  · simp

/-- C1 (amended): for every trigger operand `0 < t < 2.56`, enabling a
SensorTag triggered device writes the single byte `int(t * 100)` (a
value below 256) to the trigger characteristic as its final write; for
`t = 2.56` the encoding fails with `AssertionError` (the code only has
`assert value < 256`), not with `ConfigurationError`. -/
theorem sensortag_trigger_encode_amended (t : Rat) (h0 : 0 < t)
    (h1 : t < 256 / 100) :
    enable_sensor_tag_tr sensorTagTemperature (some t) =
      .ok [(sensorTagTemperature.uuid_conf, sensorTagTemperature.config_on),
           (sensorTagTemperature.uuid_trigger, [100]),
           (sensorTagTemperature.uuid_trigger, [(pyInt (t * 100)).toNat])] ∧
    pyInt (t * 100) < 256 ∧ 0 ≤ pyInt (t * 100) ∧
    enable_sensor_tag_tr sensorTagTemperature (some (256 / 100)) =
      .error .assertionError := by
  obtain ⟨he, h2, h3⟩ := trigger_byte_ok (le_of_lt h0) h1
  refine ⟨?_, h2, h3, ?_⟩
  · simp only [enable_sensor_tag_tr, enable_sensor_tag, trigger_byte_one, he,
      sensorTagTemperature]
    rfl
  · simp only [enable_sensor_tag_tr, enable_sensor_tag, trigger_byte_one,
      trigger_byte_256, sensorTagTemperature]
    rfl

/-- Witness for C1 at `t = 1`: the encoded trigger byte is `0x64`. -/
theorem sensortag_trigger_encode_amended_witness :
    enable_sensor_tag_tr sensorTagTemperature (some 1) =
      .ok [(sensorTagTemperature.uuid_conf, sensorTagTemperature.config_on),
           (sensorTagTemperature.uuid_trigger, [100]),
           (sensorTagTemperature.uuid_trigger, [(pyInt ((1 : Rat) * 100)).toNat])] ∧
    pyInt ((1 : Rat) * 100) < 256 ∧ 0 ≤ pyInt ((1 : Rat) * 100) ∧
    enable_sensor_tag_tr sensorTagTemperature (some (256 / 100)) =
      .error .assertionError :=
  sensortag_trigger_encode_amended 1 (by norm_num) (by norm_num)

/-- C2: the Mi-scale weight decoder maps any 9 byte payload to flags
equal to byte 0 and weight equal to the little endian 16 bit value of
bytes 1 and 2 times `0.005`, with `stabilized` bit 5 (`0x20`) and
`load_removed` bit 7 (`0x80`) of the flags; on the payload
`22 90 0A 00 00 00 00 00 00` it yields flags `0x22`, weight `13.52`,
`stabilized` true and `load_removed` false. -/
theorem convert_weight_spec :
    (∀ b0 b1 b2 b3 b4 b5 b6 b7 b8 : Nat,
      convert_weight [b0, b1, b2, b3, b4, b5, b6, b7, b8] =
        some
          { flags := b0
            weight := ((b1 + 256 * b2 : Nat) : Rat) * (5 / 1000)
            stabilized := b0.testBit 5
            load_removed := b0.testBit 7 }) ∧
    convert_weight [0x22, 0x90, 0x0A, 0, 0, 0, 0, 0, 0] =
      some { flags := 0x22, weight := 13.52, stabilized := true,
             load_removed := false } := by
  constructor
  · intro b0 b1 b2 b3 b4 b5 b6 b7 b8
    have h32 : (0x20 : Nat) = 2 ^ 5 := rfl
    have h128 : (0x80 : Nat) = 2 ^ 7 := rfl
    simp only [convert_weight, h32, h128, and_two_pow_bne_zero]
  · simp only [convert_weight, Option.some.injEq, MiScaleWeightData.mk.injEq]
    refine ⟨trivial, by norm_num, by decide, by decide⟩

/-- C6 (counterexample): on a Thingy:52 temperature device with the
registered default trigger `Trigger(FIXED_TIME, 1)`, the call
`set_trigger(device, FIXED_TIME, operand=0.5)` returns the input
descriptor itself, whose trigger field is not
`Trigger(FIXED_TIME, 0.5)`. -/
theorem set_trigger_thingy52_counterexample :
    set_trigger emptyCache thingyTemperatureDevice .FIXED_TIME (some (1 / 2)) =
      .ok (update_cache emptyCache "F0:00:00:00:00:01" .temperature (1 / 2),
        thingyTemperatureDevice) ∧
    thingyTemperatureDevice.trigger ≠
      some { condition := .FIXED_TIME, operand := some (1 / 2) } := by
  refine ⟨rfl, ?_⟩
  intro hcontra
  simp only [thingyTemperatureDevice, Option.some.injEq, Trigger.mk.injEq] at hcontra
  norm_num at hcontra

/-- C6 (amended): for every device not dispatched to the Thingy:52
override, `set_trigger(device, condition, operand)` returns a new
`DeviceTrigger` with trigger `Trigger(condition, operand)` and all other
fields unchanged; for a triggered Thingy:52 device it updates the per
MAC configuration cache and returns the input descriptor unchanged.
Descriptors themselves are never mutated. -/
theorem set_trigger_amended :
    (∀ (cache : ConfigCache) (d : DeviceDesc) (condition : TriggerCondition)
       (operand : Option Rat), isThingyTrigger d = false →
       set_trigger cache d condition operand =
         .ok (cache,
           { d with trigger := some { condition := condition, operand := operand } })) ∧
    (∀ (cache : ConfigCache) (d : DeviceDesc) (condition : TriggerCondition)
       (v : Rat) (uuid ud : String) (sz : Nat) (uc : String) (entry : ConfigEntry),
       d.service = .thingy52Srv uuid ud sz uc entry → d.trigger.isSome = true →
       set_trigger cache d condition (some v) =
         .ok (update_cache cache d.mac entry v, d)) := by
  constructor
  · intro cache d condition operand h
    obtain ⟨srv, mac, at_, cid, tr⟩ := d
    cases tr with
    | none => cases srv <;> rfl
    | some t =>
      cases srv with
      | thingy52Srv u ud sz uc entry => simp [isThingyTrigger] at h
      | service u => rfl
      | characteristic u ud sz => rfl
  · intro cache d condition v uuid ud sz uc entry hs ht
    obtain ⟨srv, mac, at_, cid, tr⟩ := d
    cases tr with
    | none => simp at ht
    | some t =>
      simp only at hs
      subst hs
      rfl

/-- Witness for C6: the default branch at a plain characteristic device
and the Thingy:52 branch at the temperature device. -/
theorem set_trigger_amended_witness :
    set_trigger emptyCache plainCharacteristicDevice .FIXED_TIME (some 1) =
      .ok (emptyCache,
        { plainCharacteristicDevice with
            trigger := some { condition := .FIXED_TIME, operand := some 1 } }) ∧
    set_trigger emptyCache thingyTemperatureDevice .FIXED_TIME (some 1) =
      .ok (update_cache emptyCache thingyTemperatureDevice.mac .temperature 1,
        thingyTemperatureDevice) :=
  ⟨set_trigger_amended.1 emptyCache plainCharacteristicDevice .FIXED_TIME (some 1) rfl,
   set_trigger_amended.2 emptyCache thingyTemperatureDevice .FIXED_TIME 1
     "ef680200-9b35-4933-9b10-52ffa9740042" "ef680201-9b35-4933-9b10-52ffa9740042"
     2 "ef680206-9b35-4933-9b10-52ffa9740042" .temperature rfl rfl⟩

/-- C7 (counterexample): calling `Notifications.start` a second time for
the same `(path, interface)` and property name without an intervening
stop does not succeed: it fails the assertion `key not in self._data`
and raises `AssertionError`. -/
theorem notifications_start_twice_counterexample :
    Notifications_start ⟨[]⟩ "/org/bluez/hci0/dev_X" "org.bluez.GattCharacteristic1"
        "Value" =
      .ok ⟨[(("/org/bluez/hci0/dev_X", "org.bluez.GattCharacteristic1"), ["Value"])]⟩ ∧
    Notifications_start
        ⟨[(("/org/bluez/hci0/dev_X", "org.bluez.GattCharacteristic1"), ["Value"])]⟩
        "/org/bluez/hci0/dev_X" "org.bluez.GattCharacteristic1" "Value" =
      .error .assertionError := by
  constructor <;> rfl

/-- C7 (amended): `Notifications.start(path, iface, name)` is not
idempotent: whenever a start for `(path, iface)` succeeded, any second
start for the same pair without an intervening stop raises
`AssertionError`, whatever the property name. -/
theorem notifications_start_twice_amended (s s' : NotifState)
    (path iface name name₂ : String)
    (h : Notifications_start s path iface name = .ok s') :
    Notifications_start s' path iface name₂ = .error .assertionError := by
  unfold Notifications_start at h ⊢
  by_cases hk : (s.data.lookup (path, iface)).isSome
  · simp [hk] at h
  · simp only [hk, Bool.false_eq_true, if_neg, ite_false, Except.ok.injEq] at h
    subst h
    simp [List.lookup]

/-- Witness for C7 at a concrete subscription state. -/
theorem notifications_start_twice_amended_witness :
    Notifications_start ⟨[(("p", "i"), ["Value"])]⟩ "p" "i" "Value" =
      .error .assertionError :=
  notifications_start_twice_amended ⟨[]⟩ ⟨[(("p", "i"), ["Value"])]⟩ "p" "i"
    "Value" "Value" rfl

/-- C8 (counterexample): with a session object that has not been started,
entering `read(device)` raises `asyncio.CancelledError("BTZen is not
running for device with address ...")`, not `CallError`; with no session
bound to the context it raises `LookupError`. -/
theorem read_before_start_counterexample :
    read_gate (some ⟨false, []⟩) "00:4B:01:02:03:04" =
      .raises (.cancelledError
        "BTZen is not running for device with address 00:4B:01:02:03:04") ∧
    read_gate (some ⟨false, []⟩) "00:4B:01:02:03:04" ≠ .raises .callError ∧
    read_gate none "00:4B:01:02:03:04" = .raises .lookupError := by
  refine ⟨rfl, ?_, rfl⟩
  decide

/-- C8 (amended): `read(device)` before the session has been started
raises `asyncio.CancelledError` carrying the message `BTZen is not
running for device with address ...` when a session object exists, and
`LookupError` when no session is bound to the context; it does not
raise `CallError`. -/
theorem read_before_start_amended (s : SessionLite) (mac : String)
    (h : s.is_active = false) :
    read_gate (some s) mac =
      .raises (.cancelledError
        ("BTZen is not running for device with address " ++ mac)) ∧
    read_gate none mac = .raises .lookupError := by
  constructor
  · simp [read_gate, h]
  · rfl

/-- Witness for C8 at a concrete inactive session. -/
theorem read_before_start_amended_witness :
    read_gate (some ⟨false, []⟩) "00:4B:01:02:03:04" =
      .raises (.cancelledError
        ("BTZen is not running for device with address " ++ "00:4B:01:02:03:04")) ∧
    read_gate none "00:4B:01:02:03:04" = .raises .lookupError :=
  read_before_start_amended ⟨false, []⟩ "00:4B:01:02:03:04" rfl

/-- C10: within an active session, waiting for connection of a device
whose MAC has no connection status entry (its MAC was not among the
devices passed to `connect`) raises `BTZenError("Device with address
... not managed by BTZen connection manager")` immediately instead of
suspending on a connection event. -/
theorem wait_connected_unmanaged_mac (s : SessionLite) (mac : String)
    (hact : s.is_active = true) (h : s.connection_status.lookup mac = none) :
    wait_connected s mac =
      .raises (.btzenError
        ("Device with address " ++ mac ++
          " not managed by BTZen connection manager")) ∧
    ∀ m, wait_connected s mac ≠ .waitsFor m := by
  have he : wait_connected s mac =
      .raises (.btzenError
        ("Device with address " ++ mac ++
          " not managed by BTZen connection manager")) := by
    simp [wait_connected, hact, h]
  exact ⟨he, fun m hc => by rw [he] at hc; exact ReadStart.noConfusion hc⟩

/-- Witness for C10 at an active session managing no MAC. -/
theorem wait_connected_unmanaged_mac_witness :
    wait_connected ⟨true, []⟩ "00:4B:01:02:03:04" =
      .raises (.btzenError
        ("Device with address " ++ "00:4B:01:02:03:04" ++
          " not managed by BTZen connection manager")) ∧
    ∀ m, wait_connected ⟨true, []⟩ "00:4B:01:02:03:04" ≠ .waitsFor m :=
  wait_connected_unmanaged_mac ⟨true, []⟩ "00:4B:01:02:03:04" rfl rfl

/-- C3: serial `read(n)` returns exactly the first `n` bytes of the
retained buffer followed by the consumed `TX_UART` fragments, keeps the
surplus in the device buffer so that a subsequent `read` continues from
it, and every credit grant issued with depleted credits carries
`min(255, ceil(remaining / 20))` credits for the remaining byte count at
that moment. -/
theorem read_data_spec (n : Nat) (st : SerialState) (frags : List (List Nat))
    (out : List Nat) (st' : SerialState) (grants : List (Nat × Nat))
    (rest : List (List Nat))
    (h : read_data n st frags = some (out, st', grants, rest)) :
    (∃ consumed,
      consumed ++ rest = frags ∧
      out.length = n ∧
      out = (st.buffer ++ consumed.flatten).take n ∧
      st'.buffer = (st.buffer ++ consumed.flatten).drop n) ∧
    out = (st.buffer ++ frags.flatten).take n ∧
    (∀ n₂ out₂ st₂ grants₂ rest₂,
      read_data n₂ st' rest = some (out₂, st₂, grants₂, rest₂) →
      out₂ = ((st.buffer ++ frags.flatten).drop n).take n₂) ∧
    (∀ p ∈ grants, 1 ≤ p.1 ∧ p.2 = credits_for p.1) := by
  obtain ⟨consumed, hcr, hlen, hout, hbuf, hgr⟩ :=
    read_data_take n st frags out st' grants rest h
  have hflat : st.buffer ++ frags.flatten =
      (st.buffer ++ consumed.flatten) ++ rest.flatten := by
    rw [← hcr]
    simp [List.flatten_append, List.append_assoc]
  have houtlen : out.length = n := by
    rw [hout, List.length_take]
    omega
  have hout2 : out = (st.buffer ++ frags.flatten).take n := by
    rw [hflat, List.take_append_of_le_length hlen, hout]
  have hdrop : (st.buffer ++ frags.flatten).drop n =
      st'.buffer ++ rest.flatten := by
    rw [hflat, List.drop_append_of_le_length hlen, hbuf]
  refine ⟨⟨consumed, hcr, houtlen, hout, hbuf⟩, hout2, ?_, hgr⟩
  intro n₂ out₂ st₂ grants₂ rest₂ h₂
  obtain ⟨consumed₂, hcr₂, hlen₂, hout₂, _, _⟩ :=
    read_data_take n₂ st' rest out₂ st₂ grants₂ rest₂ h₂
  rw [hdrop, ← hcr₂]
  rw [hout₂]
  simp only [List.flatten_append, ← List.append_assoc]
  rw [List.take_append_of_le_length hlen₂]

/-- Witness for C3: reading three bytes with one buffered byte and two
pending fragments grants one credit, returns the first three bytes and
retains the surplus. -/
theorem read_data_spec_witness :
    (∃ consumed,
      consumed ++ [[3, 4]] = [[1, 2], [3, 4]] ∧
      ([9, 1, 2] : List Nat).length = 3 ∧
      ([9, 1, 2] : List Nat) = (([9] : List Nat) ++ consumed.flatten).take 3 ∧
      (SerialState.mk [] 0).buffer =
        (([9] : List Nat) ++ consumed.flatten).drop 3) ∧
    ([9, 1, 2] : List Nat) =
      (([9] : List Nat) ++ ([[1, 2], [3, 4]] : List (List Nat)).flatten).take 3 ∧
    (∀ n₂ out₂ st₂ grants₂ rest₂,
      read_data n₂ ⟨[], 0⟩ [[3, 4]] = some (out₂, st₂, grants₂, rest₂) →
      out₂ =
        ((([9] : List Nat) ++
          ([[1, 2], [3, 4]] : List (List Nat)).flatten).drop 3).take n₂) ∧
    (∀ p ∈ ([(2, 1)] : List (Nat × Nat)), 1 ≤ p.1 ∧ p.2 = credits_for p.1) :=
  read_data_spec 3 ⟨[9], 0⟩ [[1, 2], [3, 4]] [9, 1, 2] ⟨[], 0⟩ [(2, 1)]
    [[3, 4]] (by decide)

/-- C4: after any sequence of serial transport operations the RX credit
counter equals the credits granted minus the fragments received since
the last state reset, and it is never negative. -/
theorem rx_credits_invariant (ops : List SerialOp)
    (h : ∀ op ∈ ops, ValidSerialOp op) :
    (run_credit ops).rx_credits =
      ((run_credit ops).granted : Int) - (run_credit ops).received ∧
    0 ≤ (run_credit ops).rx_credits :=
  run_credit_invariant_aux ops ⟨0, 0, 0⟩ h (by simp) (le_refl 0)

/-- Witness for C4 on a concrete operation sequence with grants, a
reset, writes and fragment receipts. -/
theorem rx_credits_invariant_witness :
    (run_credit [SerialOp.fragment 40, .writeOp, .fragment 1, .reset,
        .fragment 20]).rx_credits =
      ((run_credit [SerialOp.fragment 40, .writeOp, .fragment 1, .reset,
          .fragment 20]).granted : Int) -
        (run_credit [SerialOp.fragment 40, .writeOp, .fragment 1, .reset,
          .fragment 20]).received ∧
    0 ≤ (run_credit [SerialOp.fragment 40, .writeOp, .fragment 1, .reset,
        .fragment 20]).rx_credits :=
  rx_credits_invariant [.fragment 40, .writeOp, .fragment 1, .reset, .fragment 20]
    (by simp [List.forall_mem_cons, ValidSerialOp])

/-- C5 (counterexample): with no prior `set_trigger` call the
configuration blob written by enable is the pack of the defaults and is
12 bytes long, not 10: format `<HHHHBBBB` packs four 16 bit and four
8 bit fields. -/
theorem thingy52_config_len_counterexample :
    enable_thingy52 emptyCache "F0:00:00:00:00:01"
        "ef680206-9b35-4933-9b10-52ffa9740042" =
      some ("ef680206-9b35-4933-9b10-52ffa9740042",
        [0xE8, 0x03, 0xE8, 0x03, 0xE8, 0x03, 0xE8, 0x03, 1, 0, 255, 0]) ∧
    ([0xE8, 0x03, 0xE8, 0x03, 0xE8, 0x03, 0xE8, 0x03, 1, 0, 255, 0] :
      List Nat).length ≠ 10 := by
  constructor
  · have e : to_ms 1 = 1000 := by norm_num [to_ms, pyInt]
    have p16 : pack_u16 1000 = some [0xE8, 0x03] := by decide
    simp only [enable_thingy52, CONFIG_DATA_FMT_pack, emptyCache, e, p16]
    rfl
  · decide

/-- C5 (amended): for any sequence of `set_trigger` calls on Thingy:52
devices sharing a MAC, the configuration blob written by enable equals
`CONFIG_DATA_FMT.pack` (format `<HHHHBBBB`, hence 12 bytes, not 10) of
the four per sensor intervals converted to milliseconds, the gas mode
byte and the three RGB calibration bytes, where each interval field
holds the operand of the last `set_trigger` call for it, defaulting to
1 second intervals, gas 1 and rgb `(0, 255, 0)`. -/
theorem thingy52_config_pack_amended (ops : List TriggerOp)
    (mac uuid_conf : String) :
    enable_thingy52 (apply_trigger_ops ops emptyCache) mac uuid_conf =
      (CONFIG_DATA_FMT_pack
        { temperature := (last_written ops mac .temperature).getD 1
          pressure := (last_written ops mac .pressure).getD 1
          humidity := (last_written ops mac .humidity).getD 1
          color := (last_written ops mac .color).getD 1
          gas := 1
          rgb := (0, 255, 0) }).map (fun d => (uuid_conf, d)) ∧
    (∀ (c : Thingy52Config) (blob : List Nat),
      CONFIG_DATA_FMT_pack c = some blob → blob.length = 12) := by
  constructor
  · unfold enable_thingy52
    rw [apply_trigger_ops_last_written]
  · exact fun c blob hp => CONFIG_DATA_FMT_pack_length hp

/-- C9 (code bug): after a successful enable round, a second
`ServicesResolved` true observation whose enable fails with a
non-cancellation exception terminates `restart_devices` without
clearing the connection flag: the flag stays set although the most
recent terminal `enable` of the device failed, contradicting the
claimed invariant (the older `_restart` in the same file disables on
any `Exception`). -/
theorem restart_devices_enable_failure_bug :
    (run_cm 1 [.resolvedTrue [.success], .resolvedTrue [.failure]]).connectedFlag =
      true ∧
    (run_cm 1 [.resolvedTrue [.success], .resolvedTrue [.failure]]).lastEnable =
      [some .failure] ∧
    (run_cm 1 [.resolvedTrue [.success], .resolvedTrue [.failure]]).alive =
      false := by
  refine ⟨rfl, rfl, rfl⟩

end Btzen
